import Mathlib

/-!
Verification development for the concurrent guardrail demo server
(`concurrent-guardrail-test/app.py`).

The Python program orchestrates, per chat request, a streaming generation
call ("workflow") and a concurrent moderation call ("guardrail"): the
workflow worker pushes events onto a thread-safe queue which the
coordinator buffers until the guardrail verdict is known, then either
replays and forwards the events or discards them and emits a synthetic
rejection, deleting already-committed workflow items.

This file shallowly embeds the relevant functions:
 * `call_guardrail_sync` (app.py lines 79-185): reply parsing with a
   strict JSON stage, a tolerant regex fallback, and the exception
   handler for transport errors and Azure content-filter errors;
 * `stream_workflow_response` (app.py lines 188-285): the generator
   worker, modelled as a function from the list of low-level stream
   events (plus an optional mid-stream error) to the list of queue items
   it enqueues;
 * `chat_with_workflow_and_guardrail` (app.py lines 288-439): the
   coordinator, modelled as a function of the generator's queue
   contents, the number of queue items consumed while buffering (the
   scheduling-dependent split point), the guardrail result dict, and the
   cleanup fault pattern;
 * the conversation get-or-create step of `chat_endpoint`
   (app.py lines 469-504).

Python values parsed from JSON (and the dicts the program passes
around) are modelled by `JValue` / assoc lists with Python dict
semantics (insertion order kept, re-assignment updates in place,
`dict.get` with defaults, truthiness).
-/

/-- Model of a Python value produced by `json.loads` (and of the dicts the
program builds).  Numbers keep their source lexeme: the program never uses
numeric values, only truthiness. -/
inductive JValue where
  | null
  | bool (b : Bool)
  | num (lexeme : String)
  | str (s : String)
  | arr (items : List JValue)
  | obj (entries : List (String × JValue))
deriving Repr

/-- A Python dict with string keys, as the program's guardrail-result
values: an insertion-ordered association list with unique keys. -/
abbrev Dict := List (String × JValue)

/-- `d.get(key)` / `d[key]` lookup on a Python dict. -/
def dictGet (kvs : Dict) (k : String) : Option JValue :=
  match kvs with
  | [] => none
  | (k₀, v₀) :: rest => if k₀ = k then some v₀ else dictGet rest k

/-- `d[key] = v` on a Python dict: re-assignment keeps the key's original
position, a new key is appended (Python 3.7+ insertion order). -/
def dictSet (kvs : Dict) (k : String) (v : JValue) : Dict :=
  match kvs with
  | [] => [(k, v)]
  | (k₀, v₀) :: rest => if k₀ = k then (k, v) :: rest else (k₀, v₀) :: dictSet rest k v

/-- Collapse duplicate keys the way `json.loads` does while building an
object: last value wins, first position kept. -/
def dictSetAll (raw : Dict) : Dict :=
  raw.foldl (fun acc p => dictSet acc p.1 p.2) []

/-- Truthiness of a number lexeme: zero mantissas (`0`, `-0.00`, `0e5`)
are falsy; `NaN`/`Infinity` are truthy. -/
def numTruthy (lex : String) : Bool :=
  let mantissa := lex.takeWhile (fun c => !(c == 'e') && !(c == 'E'))
  mantissa.toList.any (fun c => c.isDigit && !(c == '0'))
    || lex.toList.any (fun c => c == 'N' || c == 'I')

/-- Python truthiness of a `JValue` (`if x:`). -/
def jtruthy : JValue → Bool
  | .null => false
  | .bool b => b
  | .num lex => numTruthy lex
  | .str s => !s.isEmpty
  | .arr xs => !xs.isEmpty
  | .obj kvs => !kvs.isEmpty

/- ### Character-list helpers shared by the JSON decoder and the regex
fallback of `call_guardrail_sync`. -/

/-- Does `cs` start with `pat`? -/
def listStartsWith : List Char → List Char → Bool
  | [], _ => true
  | _ :: _, [] => false
  | p :: ps, c :: cs => p == c && listStartsWith ps cs

/-- Does `cs` start with `pat`, ASCII case-insensitively (`re.IGNORECASE`)? -/
def listStartsWithCI : List Char → List Char → Bool
  | [], _ => true
  | _ :: _, [] => false
  | p :: ps, c :: cs => p.toLower == c.toLower && listStartsWithCI ps cs

/-- Python `needle in hay` substring test. -/
def listHasSub (hay needle : List Char) : Bool :=
  match hay with
  | [] => needle.isEmpty
  | _ :: rest => listStartsWith needle hay || listHasSub rest needle

/-- Python `needle in hay` on strings. -/
def strHasSub (hay needle : String) : Bool :=
  listHasSub hay.toList needle.toList

/-- `s.startswith(pat)`, used only in theorem statements. -/
def strStarts (s pat : String) : Bool :=
  listStartsWith pat.toList s.toList

/-- JSON insignificant whitespace (RFC 8259: space, tab, LF, CR). -/
def jsonWs (c : Char) : Bool :=
  c == ' ' || c == '\t' || c == '\n' || c == '\r'

def skipJWs : List Char → List Char
  | [] => []
  | c :: cs => if jsonWs c then skipJWs cs else c :: cs

/-- Regex `\s` whitespace class (ASCII): space, tab, LF, CR, VT, FF. -/
def regexWs (c : Char) : Bool :=
  c == ' ' || c == '\t' || c == '\n' || c == '\r' || c.toNat == 11 || c.toNat == 12

def skipRegexWs : List Char → List Char
  | [] => []
  | c :: cs => if regexWs c then skipRegexWs cs else c :: cs

/-- Strip a literal from the head of `cs`, or fail. -/
def stripLit (lit : String) (cs : List Char) : Option (List Char) :=
  if listStartsWith lit.toList cs then some (cs.drop lit.length) else none

/-- Strip a literal case-insensitively from the head of `cs`, or fail. -/
def stripLitCI (lit : String) (cs : List Char) : Option (List Char) :=
  if listStartsWithCI lit.toList cs then some (cs.drop lit.length) else none

def hexDigitVal (c : Char) : Option Nat :=
  if c.isDigit then some (c.toNat - 48)
  else if 'a' ≤ c && c ≤ 'f' then some (c.toNat - 87)
  else if 'A' ≤ c && c ≤ 'F' then some (c.toNat - 55)
  else none

/- ### JSON decoder, modelling `json.loads` as used at app.py line 122.
The decoder is exact on the JSON grammar (strings with escapes, numbers,
arrays, objects, literals, plus Python's `NaN`/`Infinity` extensions);
the error message is abstracted to the failure kind (the program only
ever wraps it into a reason text). -/

/-- Parse the body of a JSON string (after the opening quote), returning
the decoded text and the input after the closing quote.  Fuel is the
remaining input length plus one, so it never runs out on real input. -/
def jstrBody : Nat → List Char → Option (String × List Char)
  | 0, _ => none
  | _ + 1, [] => none
  | fuel + 1, c :: cs =>
    if c == '"' then some ("", cs)
    else if c == '\\' then
      match cs with
      | [] => none
      | e :: cs₂ =>
        let dec : Option (String × List Char) :=
          if e == '"' then some ("\"", cs₂)
          else if e == '\\' then some ("\\", cs₂)
          else if e == '/' then some ("/", cs₂)
          else if e == 'b' then some ("\x08", cs₂)
          else if e == 'f' then some ("\x0c", cs₂)
          else if e == 'n' then some ("\n", cs₂)
          else if e == 'r' then some ("\r", cs₂)
          else if e == 't' then some ("\t", cs₂)
          else if e == 'u' then
            match cs₂ with
            | a :: b :: c₃ :: d :: rest =>
              match hexDigitVal a, hexDigitVal b, hexDigitVal c₃, hexDigitVal d with
              | some ha, some hb, some hc, some hd =>
                some (String.singleton (Char.ofNat (((ha * 16 + hb) * 16 + hc) * 16 + hd)), rest)
              | _, _, _, _ => none
            | _ => none
          else none
        match dec with
        | some (s, rest) => (jstrBody fuel rest).map (fun p => (s ++ p.1, p.2))
        | none => none
    else if c.toNat < 32 then none
    else (jstrBody fuel cs).map (fun p => (String.singleton c ++ p.1, p.2))

def jstr (cs : List Char) : Option (String × List Char) :=
  jstrBody (cs.length + 1) cs

/-- Digit run; fails on an empty run. -/
def digitRun (cs : List Char) : Option (List Char × List Char) :=
  let ds := cs.takeWhile Char.isDigit
  if ds.isEmpty then none else some (ds, cs.drop ds.length)

/-- JSON number grammar `-?(0|[1-9][0-9]*)(\.[0-9]+)?([eE][+-]?[0-9]+)?`,
plus Python's `-Infinity`; returns the lexeme. -/
def jnum (cs : List Char) : Option (String × List Char) :=
  let (sign, cs₁) : List Char × List Char :=
    match cs with
    | '-' :: rest => (['-'], rest)
    | _ => ([], cs)
  match cs₁ with
  | 'I' :: rest =>
    if sign.isEmpty then none
    else (stripLit "nfinity" rest).map (fun r => ("-Infinity", r))
  | _ =>
    match digitRun cs₁ with
    | none => none
    | some (ds, cs₂) =>
      if ds.length > 1 && ds.headD '0' == '0' then none
      else
        let (frac, cs₃) : List Char × List Char :=
          match cs₂ with
          | '.' :: rest =>
            match digitRun rest with
            | some (fs, r) => ('.' :: fs, r)
            | none => ([], '.' :: rest)
          | _ => ([], cs₂)
        if frac.isEmpty && (match cs₂ with | '.' :: _ => true | _ => false) then none
        else
          let (expo, cs₄) : List Char × List Char :=
            match cs₃ with
            | e :: rest =>
              if e == 'e' || e == 'E' then
                match rest with
                | s :: rest₂ =>
                  if s == '+' || s == '-' then
                    match digitRun rest₂ with
                    | some (es, r) => (e :: s :: es, r)
                    | none => ([], e :: rest)
                  else
                    match digitRun rest with
                    | some (es, r) => (e :: es, r)
                    | none => ([], e :: rest)
                | [] => ([], [e])
              else ([], e :: rest)
            | [] => ([], [])
          some (String.mk (sign ++ ds ++ frac ++ expo), cs₄)

/-- One decoder level: (value, array items after `[`, object items after
an opening brace).  Level `f + 1` delegates every recursive parse to
level `f`; since at least one input character is consumed per two
levels, `2 * length + 4` fuel is always sufficient. -/
def jlevel : Nat →
    ((List Char → Option (JValue × List Char)) ×
     (List Char → Option (List JValue × List Char)) ×
     (List Char → Option (Dict × List Char)))
  | 0 => (fun _ => none, fun _ => none, fun _ => none)
  | fuel + 1 =>
    let pv := (jlevel fuel).1
    let pa := (jlevel fuel).2.1
    let po := (jlevel fuel).2.2
    let value : List Char → Option (JValue × List Char) := fun cs =>
      match skipJWs cs with
      | [] => none
      | c :: rest =>
        if c == '"' then (jstr rest).map (fun p => (JValue.str p.1, p.2))
        else if c.toNat == 91 then
          match skipJWs rest with
          | c₂ :: r₂ =>
            if c₂.toNat == 93 then some (JValue.arr [], r₂)
            else (pa (c₂ :: r₂)).map (fun p => (JValue.arr p.1, p.2))
          | [] => none
        else if c.toNat == 123 then
          match skipJWs rest with
          | c₂ :: r₂ =>
            if c₂.toNat == 125 then some (JValue.obj [], r₂)
            else (po (c₂ :: r₂)).map (fun p => (JValue.obj (dictSetAll p.1), p.2))
          | [] => none
        else if c == 'n' then (stripLit "ull" rest).map (fun r => (JValue.null, r))
        else if c == 't' then (stripLit "rue" rest).map (fun r => (JValue.bool true, r))
        else if c == 'f' then (stripLit "alse" rest).map (fun r => (JValue.bool false, r))
        else if c == 'N' then (stripLit "aN" rest).map (fun r => (JValue.num "NaN", r))
        else if c == 'I' then (stripLit "nfinity" rest).map (fun r => (JValue.num "Infinity", r))
        else if c == '-' || c.isDigit then (jnum (c :: rest)).map (fun p => (JValue.num p.1, p.2))
        else none
    let arrItems : List Char → Option (List JValue × List Char) := fun cs =>
      match pv cs with
      | none => none
      | some (v, rest) =>
        match skipJWs rest with
        | ',' :: r₂ => (pa r₂).map (fun p => (v :: p.1, p.2))
        | c₂ :: r₂ => if c₂.toNat == 93 then some ([v], r₂) else none
        | [] => none
    let objItems : List Char → Option (Dict × List Char) := fun cs =>
      match skipJWs cs with
      | '"' :: rest =>
        match jstr rest with
        | none => none
        | some (k, r₁) =>
          match skipJWs r₁ with
          | ':' :: r₂ =>
            match pv r₂ with
            | none => none
            | some (v, r₃) =>
              match skipJWs r₃ with
              | ',' :: r₄ => (po r₄).map (fun p => ((k, v) :: p.1, p.2))
              | c₄ :: r₄ => if c₄.toNat == 125 then some ([(k, v)], r₄) else none
              | [] => none
          | _ => none
      | _ => none
    (value, arrItems, objItems)

/-- `json.loads`: strict decode of the entire text (trailing whitespace
allowed, trailing data rejected). -/
def jsonLoads (s : String) : Except String JValue :=
  let cs := s.toList
  match (jlevel (2 * cs.length + 4)).1 cs with
  | none => Except.error "Expecting value"
  | some (v, rest) =>
    if (skipJWs rest).isEmpty then Except.ok v else Except.error "Extra data"

/- ### Regex fallback of `call_guardrail_sync` (app.py lines 130-141). -/

/-- Match `"guardrailPassed"\s*:\s*(true|false)` (with `re.IGNORECASE`)
anchored at the head of `cs`; the group value on success. -/
def passedMatchAt (cs : List Char) : Option Bool :=
  match stripLitCI "\"guardrailpassed\"" cs with
  | none => none
  | some r₁ =>
    match skipRegexWs r₁ with
    | ':' :: r₂ =>
      let r₃ := skipRegexWs r₂
      match stripLitCI "true" r₃ with
      | some _ => some true
      | none =>
        match stripLitCI "false" r₃ with
        | some _ => some false
        | none => none
    | _ => none

/-- `re.search` for the pattern above: leftmost match wins. -/
def passedSearch : List Char → Option Bool
  | [] => none
  | c :: cs =>
    match passedMatchAt (c :: cs) with
    | some b => some b
    | none => passedSearch cs

/-- Tolerant extraction of an `allowed`-like boolean from a malformed
reply (app.py line 133). -/
def extract_guardrail_passed (s : String) : Option Bool :=
  passedSearch s.toList

/-- Match `"reason"\s*:\s*"([^"]*)"` (case-sensitive) anchored at the
head of `cs`; the group text on success. -/
def reasonMatchAt (cs : List Char) : Option String :=
  match stripLit "\"reason\"" cs with
  | none => none
  | some r₁ =>
    match skipRegexWs r₁ with
    | ':' :: r₂ =>
      match skipRegexWs r₂ with
      | '"' :: r₃ =>
        let body := r₃.takeWhile (fun c => !(c == '"'))
        match r₃.drop body.length with
        | '"' :: _ => some (String.mk body)
        | _ => none
      | _ => none
    | _ => none

/-- `re.search` for the reason pattern: leftmost match wins. -/
def reasonSearch : List Char → Option String
  | [] => none
  | c :: cs =>
    match reasonMatchAt (c :: cs) with
    | some s => some s
    | none => reasonSearch cs

/-- Tolerant extraction of a `reason`-like string (app.py line 134). -/
def extract_reason (s : String) : Option String :=
  reasonSearch s.toList

/- ### Exception path of `call_guardrail_sync` (app.py lines 148-185). -/

/-- A Python exception raised by the moderation call: `str(e)` and the
`e.body` attribute when the exception carries one (`none` when the
attribute is absent). -/
structure ExnInfo where
  text : String
  body : Option JValue

/-- Python `str()` of a scalar, for f-string interpolation; container
formatting is approximated (no theorem depends on it). -/
def pyStr : JValue → String
  | .null => "None"
  | .bool true => "True"
  | .bool false => "False"
  | .num lex => lex
  | .str s => s
  | .arr _ => "[...]"
  | .obj _ => "\x7b...\x7d"

/-- Inner loop of the content-filter scan (app.py lines 168-172): the
first entry of `content_filter_results` whose value is a dict with a
truthy `filtered` yields the reason; the `break` leaves the rest of this
dict unscanned. -/
def firstFilteredReason : List (String × JValue) → Option String
  | [] => none
  | (name, .obj d) :: rest =>
    if jtruthy ((dictGet d "filtered").getD JValue.null) then
      some ("Azure content filter: " ++ name ++ " detected (severity: "
        ++ pyStr ((dictGet d "severity").getD (JValue.str "unknown")) ++ ")")
    else firstFilteredReason rest
  | _ :: rest => firstFilteredReason rest

/-- Outer loop over `content_filters` (app.py lines 166-172).  The inner
`break` only exits one dict, so a later entry overwrites the reason.  A
non-dict entry (or a non-dict `content_filter_results`) raises inside
the `try`, which the bare `except: pass` absorbs, keeping the reason
accumulated so far. -/
def scanContentFilters : List JValue → String → String
  | [], acc => acc
  | (.obj cf) :: rest, acc =>
    match dictGet cf "content_filter_results" with
    | some (.obj results) =>
      scanContentFilters rest ((firstFilteredReason results).getD acc)
    | some _ => acc
    | none => scanContentFilters rest acc
  | _ :: _, acc => acc

/-- `content_filters_json` extraction (app.py lines 161-162): present
only when the exception has a dict `body`; `dict.get` yields `None`
(here `none`) when the key is missing. -/
def extractedContentFilters (e : ExnInfo) : Option JValue :=
  match e.body with
  | some (.obj kvs) => dictGet kvs "content_filters"
  | _ => none

/-- `filter_reason` computation (app.py lines 156-174): default text,
refined by scanning a truthy `content_filters` list; iterating a truthy
non-list raises inside the `try` and keeps the default. -/
def filterReasonOf (contentFilters : Option JValue) : String :=
  match contentFilters with
  | some v =>
    if jtruthy v then
      match v with
      | .arr cfs => scanContentFilters cfs "Azure content filter triggered"
      | _ => "Azure content filter triggered"
    else "Azure content filter triggered"
  | none => "Azure content filter triggered"

/-- Exception handler of `call_guardrail_sync` (app.py lines 148-185):
content-filter markers in the error text turn the error into a denial
with extracted reason and the embedded `content_filters` detail;
any other error fails open (the request proceeds). -/
def handle_guardrail_error (e : ExnInfo) : Dict :=
  if strHasSub e.text "content_filter" || strHasSub e.text "content_management_policy" then
    [("guardrailPassed", .bool false),
     ("reason", .str (filterReasonOf (extractedContentFilters e))),
     ("azure_content_filter", .bool true),
     ("content_filters", (extractedContentFilters e).getD .null)]
  else
    [("guardrailPassed", .bool true),
     ("reason", .str ("Guardrail error: " ++ e.text))]

/-- Python type name of a parsed JSON value, for the `AttributeError`
text raised when `json.loads` returns a non-dict (app.py line 124). -/
def pyTypeName : JValue → String
  | .null => "NoneType"
  | .bool _ => "bool"
  | .num lex => if lex.toList.any (fun c => c == '.' || c == 'e' || c == 'E' || c == 'N' || c == 'I') then "float" else "int"
  | .str _ => "str"
  | .arr _ => "list"
  | .obj _ => "dict"

/-- `str` of the `AttributeError` raised by `result.get` on a non-dict
JSON value; this propagates to the outer `except` handler. -/
def attrErrText (v : JValue) : String :=
  let q := String.singleton (Char.ofNat 39)
  q ++ pyTypeName v ++ q ++ " object has no attribute " ++ q ++ "get" ++ q

/-- Outcome of the moderation service call: a reply text, or a raised
exception. -/
inductive ModOutcome where
  | reply (text : String)
  | err (e : ExnInfo)

/-- `call_guardrail_sync` (app.py lines 79-185), as a function of the
external call's outcome.  Reply path (lines 117-146): strict
`json.loads`, then the regex fallback, then the fail-closed default;
a successfully parsed non-dict raises `AttributeError` at
`result.get`, which lands in the outer exception handler.  Exception
path (lines 148-185): `handle_guardrail_error`. -/
def call_guardrail_sync : ModOutcome → Dict
  | .reply text =>
    match jsonLoads text with
    | .ok (.obj kvs) => kvs
    | .ok v => handle_guardrail_error ⟨attrErrText v, none⟩
    | .error msg =>
      match extract_guardrail_passed text with
      | some passed =>
        [("guardrailPassed", .bool passed),
         ("reason", .str ((extract_reason text).getD "Malformed JSON response")),
         ("raw_response", .str text)]
      | none =>
        [("guardrailPassed", .bool false),
         ("reason", .str ("Guardrail response parse error: " ++ msg)),
         ("raw_response", .str text)]
  | .err e => handle_guardrail_error e

/-- The coordinator's branch test
`if not guardrail_result.get("guardrailPassed", True)` (app.py line 359):
missing field defaults to `True`, the value is used truthily. -/
def guardrailDenied (gr : Dict) : Bool :=
  !jtruthy ((dictGet gr "guardrailPassed").getD (.bool true))

/- ### Generator worker: `stream_workflow_response` (app.py lines 188-285). -/

/-- An item the worker puts on the thread-safe queue: the dicts of
app.py lines 247-283 plus the `None` end-of-stream sentinel.  `done`
carries `full_response`, the optional `message_ids` key (absent on the
error path), and the optional `guardrail` key (used only by the
coordinator's rejection event). -/
inductive QEvent where
  | msgStart
  | msgContent (content : String)
  | msgEnd
  | done (full_response : String) (message_ids : Option (List String)) (guardrail : Option Dict)
  | sentinel
deriving Repr

def isStartEv : QEvent → Bool
  | .msgStart => true
  | _ => false

def isContentEv : QEvent → Bool
  | .msgContent _ => true
  | _ => false

def isDoneEv : QEvent → Bool
  | .done .. => true
  | _ => false

def isSentinelEv : QEvent → Bool
  | .sentinel => true
  | _ => false

/-- Kind of a low-level stream event (`event.type`). -/
inductive LLKind where
  | textDelta
  | itemAdded
  | itemDone
  | other
deriving Repr

/-- A low-level event from the workflow stream: its kind, its text delta
(meaningful on `textDelta`), and `event.item.id` when the event has an
item with an id attribute (`none` when absent). -/
structure LLEvent where
  kind : LLKind
  delta : String
  itemId : Option String
deriving Repr

/-- The id captured at app.py lines 238-239: present and truthy
(the empty string is falsy and skipped). -/
def capturedId (e : LLEvent) : Option String :=
  match e.itemId with
  | some s => if s.isEmpty then none else some s
  | none => none

def isDeltaEv (e : LLEvent) : Bool :=
  match e.kind with
  | .textDelta => true
  | _ => false

/-- Loop state of `stream_workflow_response`: queue items put so far,
the `started` flag, `full_response`, and `message_ids`. -/
structure GenAcc where
  out : List QEvent
  started : Bool
  full : String
  ids : List String

/-- One iteration of the event loop (app.py lines 228-262): capture the
item id, then on a text delta put the start marker once, extend
`full_response`, and put the content chunk. -/
def genStep (acc : GenAcc) (e : LLEvent) : GenAcc :=
  let acc :=
    match capturedId e with
    | some id => { acc with ids := acc.ids ++ [id] }
    | none => acc
  match e.kind with
  | .textDelta =>
    let out := if acc.started then acc.out else acc.out ++ [.msgStart]
    { acc with
      out := out ++ [.msgContent e.delta],
      started := true,
      full := acc.full ++ e.delta }
  | _ => acc

/-- `list(dict.fromkeys(ids))` (app.py line 269): deduplicate keeping
first-seen order. -/
def dedupKeepFirst (seen : List String) : List String → List String
  | [] => []
  | x :: xs => if x ∈ seen then dedupKeepFirst seen xs else x :: dedupKeepFirst (x :: seen) xs

/-- `stream_workflow_response` (app.py lines 188-285) as the list of
queue items it puts.  `events` are the low-level stream events processed
before the stream ends; `failure = some msg` models a transport error
raised after those events (lines 278-283): the error branch puts the
start marker unconditionally, a single `Error: ...` chunk, the end
marker and a `done` without a `message_ids` key.  The `None` sentinel
follows unconditionally (`finally`, line 285). -/
def stream_workflow_response (events : List LLEvent) (failure : Option String) : List QEvent :=
  let acc := events.foldl genStep ⟨[], false, "", []⟩
  match failure with
  | some msg =>
    acc.out ++ [.msgStart, .msgContent ("Error: " ++ msg), .msgEnd,
                .done ("Error: " ++ msg) none none, .sentinel]
  | none =>
    acc.out ++ (if acc.started then [] else [.msgStart])
            ++ [.msgEnd, .done acc.full (some (dedupKeepFirst [] acc.ids)) none, .sentinel]

/- ### Coordinator: `chat_with_workflow_and_guardrail` (app.py 288-439). -/

/-- Drain the queue until the `None` sentinel (`while True: ... if event
is None: break`). -/
def takeUntilSentinel : List QEvent → List QEvent
  | [] => []
  | e :: rest => if isSentinelEv e then [] else e :: takeUntilSentinel rest

/-- The rejection drain (app.py lines 366-372): the last `done` event
carrying a `message_ids` key determines the ids to clean up. -/
def lastDoneIds : List QEvent → List String → List String
  | [], acc => acc
  | .done _ (some ids) _ :: rest, _ => lastDoneIds rest ids
  | _ :: rest, acc => lastDoneIds rest acc

/-- Observable record of the cleanup loop (app.py lines 383-396):
which ids a deletion call was attempted for, and which of those
attempts failed (each failure is logged, never raised). -/
structure CleanupLog where
  attempted : List String
  failures : List String
deriving Repr

/-- The cleanup block (app.py lines 375-400).  `clientFails` models an
exception while creating the client (outer `except`, absorbed);
`deleteFails` models per-id deletion failures (inner `except`, logged,
the loop continues with the remaining ids). -/
def runCleanup (ids : List String) (clientFails : Bool) (deleteFails : String → Bool) : CleanupLog :=
  if ids.isEmpty then { attempted := [], failures := [] }
  else if clientFails then { attempted := [], failures := [] }
  else { attempted := ids, failures := ids.filter deleteFails }

/-- `json.dumps` string escaping (`ensure_ascii=True`); astral
characters are emitted as a single `\u` escape rather than a surrogate
pair (no theorem inspects rendered JSON). -/
def jescChar (c : Char) : String :=
  if c == '"' then "\\\""
  else if c == '\\' then "\\\\"
  else if c == '\n' then "\\n"
  else if c == '\r' then "\\r"
  else if c == '\t' then "\\t"
  else if c.toNat == 8 then "\\b"
  else if c.toNat == 12 then "\\f"
  else if c.toNat < 32 || c.toNat > 126 then
    let hx := Nat.toDigits 16 c.toNat
    "\\u" ++ String.mk (List.replicate (4 - hx.length) '0') ++ String.mk hx
  else String.singleton c

def jescString (s : String) : String :=
  "\"" ++ String.join (s.toList.map jescChar) ++ "\""

def indentSpaces (n : Nat) : String :=
  String.mk (List.replicate n ' ')

/-- `json.dumps(v, indent=2)` (app.py line 408).  Fuel only bounds the
nesting depth; 1000000 exceeds any real value (Python would hit its own
recursion limit far earlier). -/
def jdumpsFuel : Nat → Nat → JValue → String
  | 0, _, _ => ""
  | fuel + 1, ind, v =>
    match v with
    | .null => "null"
    | .bool true => "true"
    | .bool false => "false"
    | .num lex => lex
    | .str s => jescString s
    | .arr [] => "[]"
    | .arr xs =>
      "[\n"
        ++ String.intercalate ",\n"
             (xs.map (fun x => indentSpaces (ind + 2) ++ jdumpsFuel fuel (ind + 2) x))
        ++ "\n" ++ indentSpaces ind ++ "]"
    | .obj [] => "\x7b\x7d"
    | .obj kvs =>
      "\x7b\n"
        ++ String.intercalate ",\n"
             (kvs.map (fun p =>
               indentSpaces (ind + 2) ++ jescString p.1 ++ ": " ++ jdumpsFuel fuel (ind + 2) p.2))
        ++ "\n" ++ indentSpaces ind ++ "\x7d"

def jdumps (v : JValue) : String :=
  jdumpsFuel 1000000 0 v

/-- The rejection message (app.py lines 403-409). -/
def rejection_message (gr : Dict) : String :=
  let reason :=
    match dictGet gr "reason" with
    | some v => pyStr v
    | none => "Unknown"
  let base := "Guardrail Hit :(\n\n**Reason:** " ++ reason ++ "\n\n"
  match dictGet gr "content_filters" with
  | some cf =>
    if jtruthy cf then
      base ++ "**Content Filters:**\n```json\n" ++ jdumps cf ++ "\n```"
    else base
  | none => base

/-- What one coordinator invocation does: the events it yields to the
gateway and the cleanup calls it performs. -/
structure CoordResult where
  output : List QEvent
  cleanup : CleanupLog
deriving Repr

/-- `chat_with_workflow_and_guardrail` (app.py lines 288-439).

`q` is the full sequence the generator worker puts on the queue
(sentinel-terminated for real runs); `k` is the number of queue items
the buffering loop (lines 330-351) dequeued before the guardrail future
resolved — the scheduling-dependent split point: a dequeued sentinel
sets `workflow_done` instead of entering the buffer (lines 343-346).

Denial branch (lines 359-418): unless the sentinel was already seen,
drain the queue to recover the last `message_ids` (lines 365-372), run
the cleanup block, and yield exactly the four synthetic rejection
events (lines 411-414) — the buffer is discarded.

Allowed branch (lines 420-436): replay the buffer except `done` events,
then, unless the sentinel was already seen, forward the remaining queue
items (including `done` events) until the sentinel. -/
def chat_with_workflow_and_guardrail (q : List QEvent) (k : Nat) (gr : Dict)
    (clientFails : Bool) (deleteFails : String → Bool) : CoordResult :=
  let buffered := (q.take k).filter (fun e => !isSentinelEv e)
  let workflowDone := (q.take k).any isSentinelEv
  let remaining := q.drop k
  if guardrailDenied gr then
    let ids := if workflowDone then [] else lastDoneIds (takeUntilSentinel remaining) []
    let msg := rejection_message gr
    { output := [.msgStart, .msgContent msg, .msgEnd, .done msg none (some gr)],
      cleanup := runCleanup ids clientFails deleteFails }
  else
    let replay := buffered.filter (fun e => !isDoneEv e)
    let drained := if workflowDone then [] else takeUntilSentinel remaining
    { output := replay ++ drained, cleanup := { attempted := [], failures := [] } }

/-- Concatenation, in yield order, of all message-content chunks of an
output sequence. -/
def contentConcat : List QEvent → String
  | [] => ""
  | .msgContent c :: rest => c ++ contentConcat rest
  | _ :: rest => contentConcat rest

/-- The `full_response` the gateway records for the turn (app.py lines
513-521): the last `done` event's `full_response`, or the empty string
when no `done` event was yielded. -/
def recorded_full_response (out : List QEvent) : String :=
  out.foldl (fun acc e => match e with | .done fr _ _ => fr | _ => acc) ""

/- ### Session handle creation in `chat_endpoint` (app.py lines 469-504). -/

/-- The two persistent conversation handles of the session. -/
structure SessionState where
  guardrail_conversation_id : Option String
  workflow_conversation_id : Option String
deriving Repr, DecidableEq

/-- Result of the get-or-create step: the new state and how many
external `conversations.create` calls were made per kind. -/
structure EnsureResult where
  state : SessionState
  guardrail_creates : Nat
  workflow_creates : Nat
deriving Repr, DecidableEq

/-- The conversation get-or-create step (app.py lines 472-504): each
handle is created only when absent, otherwise reused; `freshG` /
`freshW` are the ids the external service would return. -/
def ensure_conversations (st : SessionState) (freshG freshW : String) : EnsureResult :=
  let needsGuardrail := st.guardrail_conversation_id.isNone
  let needsWorkflow := st.workflow_conversation_id.isNone
  { state :=
      { guardrail_conversation_id :=
          if needsGuardrail then some freshG else st.guardrail_conversation_id,
        workflow_conversation_id :=
          if needsWorkflow then some freshW else st.workflow_conversation_id },
    guardrail_creates := if needsGuardrail then 1 else 0,
    workflow_creates := if needsWorkflow then 1 else 0 }

/- ### Development lemmas about the generator's queue contents. -/

theorem contentConcat_append (a b : List QEvent) :
    contentConcat (a ++ b) = contentConcat a ++ contentConcat b := by
  induction a with
  | nil => simp [contentConcat]
  | cons e rest ih =>
    cases e <;> simp [contentConcat, ih, String.append_assoc]

theorem genStep_out_tail (acc : GenAcc) (e : LLEvent) :
    ∃ tail, (genStep acc e).out = acc.out ++ tail
      ∧ tail.countP isSentinelEv = 0 ∧ tail.countP isDoneEv = 0
      ∧ contentConcat tail = (if isDeltaEv e then e.delta else "") := by
  unfold genStep
  cases hid : capturedId e <;> cases hk : e.kind
  case none.textDelta | some.textDelta =>
    cases hs : acc.started
    · refine ⟨[.msgStart, .msgContent e.delta], ?_, ?_, ?_, ?_⟩ <;>
        simp [hk, hs, List.countP_cons, isSentinelEv, isDoneEv, isDeltaEv, contentConcat]
    · refine ⟨[.msgContent e.delta], ?_, ?_, ?_, ?_⟩ <;>
        simp [hk, hs, List.countP_cons, isSentinelEv, isDoneEv, isDeltaEv, contentConcat]
  all_goals
    refine ⟨[], ?_, ?_, ?_, ?_⟩ <;> simp [hk, isDeltaEv, contentConcat]

theorem genStep_full (acc : GenAcc) (e : LLEvent) :
    (genStep acc e).full = acc.full ++ (if isDeltaEv e then e.delta else "") := by
  unfold genStep
  cases hid : capturedId e <;> cases hk : e.kind <;> simp [isDeltaEv, hk]

theorem genStep_started (acc : GenAcc) (e : LLEvent) :
    (genStep acc e).started = (acc.started || isDeltaEv e) := by
  unfold genStep
  cases hid : capturedId e <;> cases hk : e.kind <;> simp [isDeltaEv, hk]

theorem genStep_ids (acc : GenAcc) (e : LLEvent) :
    (genStep acc e).ids = acc.ids ++ (capturedId e).toList := by
  unfold genStep
  cases hid : capturedId e <;> cases hk : e.kind <;> simp [hid]

theorem genStep_content (acc : GenAcc) (e : LLEvent)
    (h : contentConcat acc.out = acc.full) :
    contentConcat (genStep acc e).out = (genStep acc e).full := by
  obtain ⟨tail, ht, _, _, hc⟩ := genStep_out_tail acc e
  rw [ht, contentConcat_append, h, hc, genStep_full]

theorem genStep_countStart (acc : GenAcc) (e : LLEvent)
    (h : acc.out.countP isStartEv = (if acc.started then 1 else 0)) :
    (genStep acc e).out.countP isStartEv = (if (genStep acc e).started then 1 else 0) := by
  rw [genStep_started]
  unfold genStep
  cases hid : capturedId e <;> cases hk : e.kind <;>
    simp [isDeltaEv, hk] <;>
    (try exact h) <;>
    cases hs : acc.started <;>
      simp [hs, List.countP_append, List.countP_cons, isStartEv] <;>
      simpa [hs] using h

theorem genFold_countSentinel (events : List LLEvent) : ∀ acc : GenAcc,
    (events.foldl genStep acc).out.countP isSentinelEv = acc.out.countP isSentinelEv := by
  induction events with
  | nil => intro acc; simp
  | cons e rest ih =>
    intro acc
    obtain ⟨tail, ht, hts, _, _⟩ := genStep_out_tail acc e
    rw [List.foldl_cons, ih, ht, List.countP_append, hts]
    omega

theorem genFold_countDone (events : List LLEvent) : ∀ acc : GenAcc,
    (events.foldl genStep acc).out.countP isDoneEv = acc.out.countP isDoneEv := by
  induction events with
  | nil => intro acc; simp
  | cons e rest ih =>
    intro acc
    obtain ⟨tail, ht, _, htd, _⟩ := genStep_out_tail acc e
    rw [List.foldl_cons, ih, ht, List.countP_append, htd]
    omega

theorem genFold_content (events : List LLEvent) : ∀ acc : GenAcc,
    contentConcat acc.out = acc.full →
    contentConcat (events.foldl genStep acc).out = (events.foldl genStep acc).full := by
  induction events with
  | nil => intro acc h; simpa using h
  | cons e rest ih =>
    intro acc h
    exact ih (genStep acc e) (genStep_content acc e h)

theorem genFold_started (events : List LLEvent) : ∀ acc : GenAcc,
    (events.foldl genStep acc).started = (acc.started || events.any isDeltaEv) := by
  induction events with
  | nil => intro acc; simp
  | cons e rest ih =>
    intro acc
    rw [List.foldl_cons, ih, genStep_started, List.any_cons, Bool.or_assoc]

theorem genFold_ids (events : List LLEvent) : ∀ acc : GenAcc,
    (events.foldl genStep acc).ids = acc.ids ++ events.filterMap capturedId := by
  induction events with
  | nil => intro acc; simp
  | cons e rest ih =>
    intro acc
    rw [List.foldl_cons, ih, genStep_ids, List.filterMap_cons]
    cases hid : capturedId e <;> simp [hid]

theorem genFold_countStart (events : List LLEvent) : ∀ acc : GenAcc,
    acc.out.countP isStartEv = (if acc.started then 1 else 0) →
    (events.foldl genStep acc).out.countP isStartEv
      = (if (events.foldl genStep acc).started then 1 else 0) := by
  induction events with
  | nil => intro acc h; simpa using h
  | cons e rest ih =>
    intro acc h
    exact ih (genStep acc e) (genStep_countStart acc e h)

/-- Structure of a successful worker run's queue: some sentinel-free,
done-free body, then the terminal `done` carrying the concatenation of
all chunks and the deduplicated ids, then the sentinel. -/
theorem stream_success_shape (events : List LLEvent) :
    ∃ B F U, stream_workflow_response events none = B ++ [.done F (some U) none, .sentinel]
      ∧ B.countP isSentinelEv = 0 ∧ B.countP isDoneEv = 0
      ∧ contentConcat B = F
      ∧ U = dedupKeepFirst [] (events.filterMap capturedId) := by
  unfold stream_workflow_response
  refine ⟨(events.foldl genStep ⟨[], false, "", []⟩).out
      ++ ((if (events.foldl genStep ⟨[], false, "", []⟩).started then [] else [.msgStart])
      ++ [.msgEnd]),
    (events.foldl genStep ⟨[], false, "", []⟩).full,
    dedupKeepFirst [] (events.foldl genStep ⟨[], false, "", []⟩).ids, ?_, ?_, ?_, ?_, ?_⟩
  · simp
  · rw [List.countP_append, genFold_countSentinel]
    cases (events.foldl genStep ⟨[], false, "", []⟩).started <;>
      simp [List.countP_cons, isSentinelEv]
  · rw [List.countP_append, genFold_countDone]
    cases (events.foldl genStep ⟨[], false, "", []⟩).started <;>
      simp [List.countP_cons, isDoneEv]
  · rw [contentConcat_append, genFold_content events ⟨[], false, "", []⟩ (by simp [contentConcat])]
    cases (events.foldl genStep ⟨[], false, "", []⟩).started <;>
      simp [contentConcat]
  · rw [genFold_ids]
    simp

theorem takeUntilSentinel_append (xs ys : List QEvent)
    (h : xs.countP isSentinelEv = 0) :
    takeUntilSentinel (xs ++ .sentinel :: ys) = xs := by
  induction xs with
  | nil => simp [takeUntilSentinel, isSentinelEv]
  | cons x rest ih =>
    rw [List.countP_cons] at h
    have hx : isSentinelEv x = false := by
      by_contra hc
      simp [eq_true_of_ne_false hc] at h
    simp only [List.cons_append, takeUntilSentinel, hx]
    simp [ih (by omega)]

theorem lastDoneIds_append (xs : List QEvent) (F : String) (ids : List String)
    (g : Option Dict) (acc : List String) (h : xs.countP isDoneEv = 0) :
    lastDoneIds (xs ++ [.done F (some ids) g]) acc = ids := by
  induction xs generalizing acc with
  | nil => simp [lastDoneIds]
  | cons x rest ih =>
    rw [List.countP_cons] at h
    have hx : isDoneEv x = false := by
      by_contra hc
      simp [eq_true_of_ne_false hc] at h
    cases x with
    | done f i g₂ => simp [isDoneEv] at hx
    | msgStart => exact ih _ (by omega)
    | msgContent c => exact ih _ (by omega)
    | msgEnd => exact ih _ (by omega)
    | sentinel => exact ih _ (by omega)

/-- Shared facts about the buffering split of a queue `B ++ tail` with a
sentinel-free `B` when at most `B.length` items were consumed. -/
theorem buffer_split (B tail : List QEvent) (k : Nat)
    (hs : B.countP isSentinelEv = 0) (hk : k ≤ B.length) :
    (B ++ tail).take k = B.take k
    ∧ ((B ++ tail).take k).any isSentinelEv = false
    ∧ ((B ++ tail).take k).filter (fun e => !isSentinelEv e) = B.take k
    ∧ (B ++ tail).drop k = B.drop k ++ tail
    ∧ (B.drop k).countP isSentinelEv = 0 := by
  have hall : ∀ x ∈ B, isSentinelEv x = false := by
    intro x hx
    simpa using List.countP_eq_zero.mp hs x hx
  have htake : (B ++ tail).take k = B.take k := List.take_append_of_le_length hk
  have hallT : ∀ x ∈ B.take k, isSentinelEv x = false :=
    fun x hx => hall x (List.take_subset _ _ hx)
  refine ⟨htake, ?_, ?_, List.drop_append_of_le_length hk, ?_⟩
  · rw [htake, List.any_eq_false]
    intro x hx
    simp [hallT x hx]
  · rw [htake]
    exact List.filter_eq_self.mpr (fun x hx => by simp [hallT x hx])
  · have := List.countP_append isSentinelEv (B.take k) (B.drop k)
    rw [List.take_append_drop] at this
    omega

/-- Allowed path on a well-formed queue: everything before the sentinel
is yielded, the buffered part first (minus nothing, since the body is
done-free), then the drained part including the terminal `done`. -/
theorem coord_allowed_output (B : List QEvent) (F : String) (ids : Option (List String))
    (g : Option Dict) (k : Nat) (gr : Dict) (cf : Bool) (df : String → Bool)
    (hs : B.countP isSentinelEv = 0) (hd : B.countP isDoneEv = 0)
    (hk : k ≤ B.length) (hgr : guardrailDenied gr = false) :
    (chat_with_workflow_and_guardrail (B ++ [.done F ids g, .sentinel]) k gr cf df).output
      = B ++ [.done F ids g] := by
  obtain ⟨_, hany, hfil, hdrop, hdropcnt⟩ :=
    buffer_split B [.done F ids g, .sentinel] k hs hk
  have hallD : ∀ x ∈ B, isDoneEv x = false := by
    intro x hx
    simpa using List.countP_eq_zero.mp hd x hx
  unfold chat_with_workflow_and_guardrail
  simp only [hgr, Bool.false_eq_true, if_false, hany, hfil, hdrop]
  have hfil₂ : (B.take k).filter (fun e => !isDoneEv e) = B.take k :=
    List.filter_eq_self.mpr
      (fun x hx => by simp [hallD x (List.take_subset _ _ hx)])
  have hTUS : takeUntilSentinel (B.drop k ++ [.done F ids g, .sentinel])
      = B.drop k ++ [.done F ids g] := by
    have : B.drop k ++ [.done F ids g, .sentinel]
        = (B.drop k ++ [.done F ids g]) ++ .sentinel :: [] := by simp
    rw [this, takeUntilSentinel_append]
    rw [List.countP_append, hdropcnt, List.countP_cons]
    simp [isSentinelEv]
  simp only [hfil₂, hTUS]
  rw [← List.append_assoc, List.take_append_drop]

/-- Denial path: the output is exactly the four synthetic rejection
events, whatever the queue holds and wherever the split fell. -/
theorem coord_denied_output (q : List QEvent) (k : Nat) (gr : Dict)
    (cf : Bool) (df : String → Bool) (hgr : guardrailDenied gr = true) :
    (chat_with_workflow_and_guardrail q k gr cf df).output
      = [.msgStart, .msgContent (rejection_message gr), .msgEnd,
         .done (rejection_message gr) none (some gr)] := by
  unfold chat_with_workflow_and_guardrail
  simp [hgr]

/-- Denial path on a well-formed queue whose terminal `done` was not
consumed during buffering: the drain recovers exactly the terminal ids. -/
theorem coord_denied_cleanup (B : List QEvent) (F : String) (U : List String)
    (g : Option Dict) (k : Nat) (gr : Dict) (cf : Bool) (df : String → Bool)
    (hs : B.countP isSentinelEv = 0) (hd : B.countP isDoneEv = 0)
    (hk : k ≤ B.length) (hgr : guardrailDenied gr = true) :
    (chat_with_workflow_and_guardrail (B ++ [.done F (some U) g, .sentinel]) k gr cf df).cleanup
      = runCleanup U cf df := by
  obtain ⟨_, hany, _, hdrop, hdropcnt⟩ :=
    buffer_split B [.done F (some U) g, .sentinel] k hs hk
  have hdropd : (B.drop k).countP isDoneEv = 0 := by
    have := List.countP_append isDoneEv (B.take k) (B.drop k)
    rw [List.take_append_drop] at this
    omega
  unfold chat_with_workflow_and_guardrail
  simp only [hgr, if_true, hany, hdrop, Bool.false_eq_true, if_false]
  have hTUS : takeUntilSentinel (B.drop k ++ [.done F (some U) g, .sentinel])
      = B.drop k ++ [.done F (some U) g] := by
    have : B.drop k ++ [.done F (some U) g, .sentinel]
        = (B.drop k ++ [.done F (some U) g]) ++ .sentinel :: [] := by simp
    rw [this, takeUntilSentinel_append]
    rw [List.countP_append, hdropcnt, List.countP_cons]
    simp [isSentinelEv]
  rw [hTUS, lastDoneIds_append _ _ _ _ _ hdropd]

/- ### Prefix lemmas for reason texts. -/

theorem listStartsWith_extend (n : List Char) : ∀ f r : List Char,
    listStartsWith n f = true → n.length ≤ f.length →
    listStartsWith n (f ++ r) = true := by
  induction n with
  | nil => intro f r _ _; simp [listStartsWith]
  | cons p ps ih =>
    intro f r hn hl
    cases f with
    | nil => simp at hl
    | cons c cs =>
      simp only [listStartsWith, Bool.and_eq_true] at hn
      simp only [List.cons_append, listStartsWith, Bool.and_eq_true]
      exact ⟨hn.1, ih cs r hn.2 (by simpa using hl)⟩

theorem strStarts_append (pat mid x : String)
    (h : listStartsWith pat.toList mid.toList = true)
    (hl : pat.toList.length ≤ mid.toList.length) :
    strStarts (mid ++ x) pat = true := by
  unfold strStarts
  have hsplit : (mid ++ x).toList = mid.toList ++ x.toList := by
    simp [String.toList]
  rw [hsplit]
  exact listStartsWith_extend _ _ _ h hl

theorem firstFilteredReason_starts (results : List (String × JValue)) :
    ∀ s, firstFilteredReason results = some s →
    strStarts s "Azure content filter" = true := by
  induction results with
  | nil => intro s h; simp [firstFilteredReason] at h
  | cons p rest ih =>
    intro s h
    obtain ⟨name, v⟩ := p
    cases v with
    | obj d =>
      by_cases hf : jtruthy ((dictGet d "filtered").getD JValue.null) = true
      · simp only [firstFilteredReason, hf, if_true, Option.some.injEq] at h
        subst h
        rw [String.append_assoc, String.append_assoc]
        exact strStarts_append "Azure content filter" "Azure content filter: " _
          (by decide) (by decide)
      · simp only [firstFilteredReason, hf, if_false] at h
        exact ih s h
    | null => exact ih s (by simpa [firstFilteredReason] using h)
    | bool b => exact ih s (by simpa [firstFilteredReason] using h)
    | num lex => exact ih s (by simpa [firstFilteredReason] using h)
    | str t => exact ih s (by simpa [firstFilteredReason] using h)
    | arr xs => exact ih s (by simpa [firstFilteredReason] using h)

theorem scanContentFilters_starts (cfs : List JValue) : ∀ acc : String,
    strStarts acc "Azure content filter" = true →
    strStarts (scanContentFilters cfs acc) "Azure content filter" = true := by
  induction cfs with
  | nil => intro acc h; simpa [scanContentFilters] using h
  | cons cf rest ih =>
    intro acc h
    cases cf with
    | obj kvs =>
      simp only [scanContentFilters]
      cases hres : dictGet kvs "content_filter_results" with
      | none => exact ih acc h
      | some v =>
        cases v with
        | obj results =>
          cases hfr : firstFilteredReason results with
          | none => simpa [hfr] using ih acc h
          | some s => simpa [hfr] using ih s (firstFilteredReason_starts results s hfr)
        | null => exact h
        | bool b => exact h
        | num lex => exact h
        | str t => exact h
        | arr xs => exact h
    | null => exact h
    | bool b => exact h
    | num lex => exact h
    | str t => exact h
    | arr xs => exact h

theorem filterReasonOf_starts (cf : Option JValue) :
    strStarts (filterReasonOf cf) "Azure content filter" = true := by
  cases cf with
  | none => decide
  | some v =>
    by_cases ht : jtruthy v = true
    · cases v with
      | arr cfs =>
        simp only [filterReasonOf, if_pos ht]
        exact scanContentFilters_starts _ _ (by decide)
      | null => simp only [filterReasonOf, if_pos ht]; decide
      | bool b => simp only [filterReasonOf, if_pos ht]; decide
      | num lex => simp only [filterReasonOf, if_pos ht]; decide
      | str s => simp only [filterReasonOf, if_pos ht]; decide
      | obj kvs => simp only [filterReasonOf, if_pos ht]; decide
    · simp only [filterReasonOf, if_neg ht]
      decide

theorem recorded_no_done (out : List QEvent) (h : out.countP isDoneEv = 0) :
    recorded_full_response out = "" := by
  induction out with
  | nil => rfl
  | cons e rest ih =>
    rw [List.countP_cons] at h
    cases e with
    | done f i g => simp [isDoneEv] at h
    | msgStart => exact ih (by omega)
    | msgContent c => exact ih (by omega)
    | msgEnd => exact ih (by omega)
    | sentinel => exact ih (by omega)

/-- Allowed path when every queue item including the sentinel was
consumed during buffering: the replay drops the buffered `done`, the
drain is skipped, so only the body is yielded. -/
theorem coord_allowed_full_buffer (B : List QEvent) (F : String)
    (ids : Option (List String)) (g : Option Dict) (gr : Dict) (cf : Bool)
    (df : String → Bool)
    (hs : B.countP isSentinelEv = 0) (hd : B.countP isDoneEv = 0)
    (hgr : guardrailDenied gr = false) :
    (chat_with_workflow_and_guardrail (B ++ [QEvent.done F ids g, QEvent.sentinel])
        (B ++ [QEvent.done F ids g, QEvent.sentinel]).length gr cf df).output = B := by
  have hallS : ∀ x ∈ B, isSentinelEv x = false := by
    intro x hx
    simpa using List.countP_eq_zero.mp hs x hx
  have hallD : ∀ x ∈ B, isDoneEv x = false := by
    intro x hx
    simpa using List.countP_eq_zero.mp hd x hx
  unfold chat_with_workflow_and_guardrail
  simp only [hgr, Bool.false_eq_true, if_false, List.take_length]
  have hany : (B ++ [(QEvent.done F ids g), QEvent.sentinel]).any isSentinelEv = true := by
    simp [List.any_append, isSentinelEv]
  have hfil : (B ++ [(QEvent.done F ids g), QEvent.sentinel]).filter (fun e => !isSentinelEv e)
      = B ++ [QEvent.done F ids g] := by
    rw [List.filter_append]
    rw [List.filter_eq_self.mpr (fun x hx => by simp [hallS x hx])]
    simp [isSentinelEv]
  have hfil₂ : (B ++ [QEvent.done F ids g]).filter (fun e => !isDoneEv e) = B := by
    rw [List.filter_append]
    rw [List.filter_eq_self.mpr (fun x hx => by simp [hallD x hx])]
    simp [isDoneEv]
  simp [hany, hfil, hfil₂]

/- ### Claim theorems. -/

def grDenyNo : Dict := [("guardrailPassed", JValue.bool false), ("reason", JValue.str "no")]

/-- C1.  Content isolation on denial: for every request whose moderation
verdict is denied, no output event containing generator-produced content
(no buffered or live workflow chunk) ever appears in the sequence
yielded by `chat_with_workflow_and_guardrail` — whatever the generator
put on the queue (`q`) and however many items the buffering loop had
consumed (`k`), the only yielded events are the four synthetic rejection
events. -/
theorem C1_denial_content_isolation (q : List QEvent) (k : Nat) (gr : Dict)
    (cf : Bool) (df : String → Bool) (hden : guardrailDenied gr = true) :
    (chat_with_workflow_and_guardrail q k gr cf df).output
      = [.msgStart, .msgContent (rejection_message gr), .msgEnd,
         .done (rejection_message gr) none (some gr)] :=
  coord_denied_output q k gr cf df hden

/-- Witness for C1 at a concrete denied verdict and a queue holding a
buffered workflow chunk. -/
theorem C1_denial_content_isolation_witness :
    guardrailDenied grDenyNo = true
    ∧ (chat_with_workflow_and_guardrail
        (stream_workflow_response [⟨.textDelta, "x", none⟩] none) 1 grDenyNo false
        (fun _ => false)).output
      = [.msgStart, .msgContent (rejection_message grDenyNo), .msgEnd,
         .done (rejection_message grDenyNo) none (some grDenyNo)] :=
  ⟨rfl, C1_denial_content_isolation
    (stream_workflow_response [⟨.textDelta, "x", none⟩] none) 1 grDenyNo false
    (fun _ => false) rfl⟩

/-- C2.  Exact rejection output: for a verdict that parses to denied
with reason `policy` and no content filters, the output sequence is
exactly a message-start event, one message-content event with text
`Guardrail Hit :(\n\n**Reason:** policy\n\n`, a message-end event, and a
terminal done event carrying that same text and the verdict — with zero
generator content forwarded regardless of what the generator emits. -/
theorem C2_exact_rejection_sequence (q : List QEvent) (k : Nat) (gr : Dict)
    (cf : Bool) (df : String → Bool)
    (hp : dictGet gr "guardrailPassed" = some (.bool false))
    (hr : dictGet gr "reason" = some (.str "policy"))
    (hcf : dictGet gr "content_filters" = none) :
    (chat_with_workflow_and_guardrail q k gr cf df).output
      = [.msgStart, .msgContent "Guardrail Hit :(\n\n**Reason:** policy\n\n", .msgEnd,
         .done "Guardrail Hit :(\n\n**Reason:** policy\n\n" none (some gr)] := by
  have hden : guardrailDenied gr = true := by
    simp [guardrailDenied, hp, jtruthy]
  have hmsg : rejection_message gr = "Guardrail Hit :(\n\n**Reason:** policy\n\n" := by
    unfold rejection_message
    rw [hr, hcf]
    rfl
  rw [coord_denied_output q k gr cf df hden, hmsg]

/-- The moderation reply of C2's scenario (`allowed: false` in the
spec's abstract field naming is `guardrailPassed: false` on the wire). -/
def replyPolicyDeny : String :=
  "\x7b\"guardrailPassed\": false, \"reason\": \"policy\"\x7d"

/-- Witness for C2: the scenario reply parsed by `call_guardrail_sync`,
with a generator that later emits `ignored`. -/
theorem C2_exact_rejection_sequence_witness :
    dictGet (call_guardrail_sync (.reply replyPolicyDeny)) "guardrailPassed"
        = some (.bool false)
    ∧ dictGet (call_guardrail_sync (.reply replyPolicyDeny)) "reason"
        = some (.str "policy")
    ∧ (chat_with_workflow_and_guardrail
          (stream_workflow_response [⟨.textDelta, "ignored", none⟩] none) 0
          (call_guardrail_sync (.reply replyPolicyDeny)) false (fun _ => false)).output
      = [.msgStart, .msgContent "Guardrail Hit :(\n\n**Reason:** policy\n\n", .msgEnd,
         .done "Guardrail Hit :(\n\n**Reason:** policy\n\n" none
           (some (call_guardrail_sync (.reply replyPolicyDeny)))] :=
  ⟨rfl, rfl,
    C2_exact_rejection_sequence
      (stream_workflow_response [⟨.textDelta, "ignored", none⟩] none) 0
      (call_guardrail_sync (.reply replyPolicyDeny)) false (fun _ => false)
      rfl rfl rfl⟩

/-- C3.  Round-trip on the allowed path: for every generator run and
every buffering split that leaves the terminal done event to the drain,
when the verdict is allowed the concatenation, in yield order, of all
message-content chunks the coordinator outputs equals the
`full_response` carried by the yielded terminal done event (which is the
last output event). -/
theorem C3_allowed_roundtrip (events : List LLEvent) (k : Nat) (gr : Dict)
    (cf : Bool) (df : String → Bool)
    (hall : guardrailDenied gr = false)
    (hk : k + 2 ≤ (stream_workflow_response events none).length) :
    ∃ ids g,
      ((chat_with_workflow_and_guardrail (stream_workflow_response events none)
          k gr cf df).output).getLast?
        = some (.done
            (contentConcat ((chat_with_workflow_and_guardrail
              (stream_workflow_response events none) k gr cf df).output)) ids g) := by
  obtain ⟨B, F, U, hq, hs, hd, hc, hU⟩ := stream_success_shape events
  have hlen : (stream_workflow_response events none).length = B.length + 2 := by
    rw [hq]; simp
  have hkB : k ≤ B.length := by omega
  rw [hq, coord_allowed_output B F (some U) none k gr cf df hs hd hkB hall]
  refine ⟨some U, none, ?_⟩
  have hcc : contentConcat (B ++ [QEvent.done F (some U) none]) = F := by
    rw [contentConcat_append, hc]
    simp [contentConcat]
  rw [hcc]
  simp

def evHello : List LLEvent :=
  [⟨.textDelta, "Hel", none⟩, ⟨.textDelta, "lo, ", none⟩, ⟨.textDelta, "world", none⟩]

def grAllowOk : Dict := [("guardrailPassed", JValue.bool true)]

/-- Witness for C3: a generator producing chunks `Hel`, `lo, `, `world`
with an allowed verdict and two chunks buffered yields output
concatenating to `Hello, world`, matching the terminal done event. -/
theorem C3_allowed_roundtrip_witness :
    guardrailDenied grAllowOk = false
    ∧ 2 + 2 ≤ (stream_workflow_response evHello none).length
    ∧ contentConcat ((chat_with_workflow_and_guardrail
          (stream_workflow_response evHello none) 2 grAllowOk false
          (fun _ => false)).output) = "Hello, world"
    ∧ (∃ ids g,
        ((chat_with_workflow_and_guardrail (stream_workflow_response evHello none)
            2 grAllowOk false (fun _ => false)).output).getLast?
          = some (.done
              (contentConcat ((chat_with_workflow_and_guardrail
                (stream_workflow_response evHello none) 2 grAllowOk false
                (fun _ => false)).output)) ids g)) :=
  ⟨rfl, by decide, rfl,
    C3_allowed_roundtrip evHello 2 grAllowOk false (fun _ => false) rfl (by decide)⟩

/-- C4.  Fail-closed on an unparseable moderation reply: for every reply
text on which strict JSON decoding fails and from which the tolerant
fallback can extract no `guardrailPassed`-like boolean, the returned
verdict has `guardrailPassed = false` and a reason that names the parse
error. -/
theorem C4_fail_closed_unparseable (text msg : String)
    (hp : jsonLoads text = .error msg)
    (he : extract_guardrail_passed text = none) :
    dictGet (call_guardrail_sync (.reply text)) "guardrailPassed"
        = some (.bool false)
    ∧ ∃ s, dictGet (call_guardrail_sync (.reply text)) "reason" = some (.str s)
        ∧ strStarts s "Guardrail response parse error" = true := by
  have hres : call_guardrail_sync (.reply text)
      = [("guardrailPassed", .bool false),
         ("reason", .str ("Guardrail response parse error: " ++ msg)),
         ("raw_response", .str text)] := by
    simp only [call_guardrail_sync, hp, he]
  rw [hres]
  refine ⟨rfl, "Guardrail response parse error: " ++ msg, rfl, ?_⟩
  exact strStarts_append "Guardrail response parse error"
    "Guardrail response parse error: " msg (by decide) (by decide)

/-- Witness for C4 at the bare reply `not-json`. -/
theorem C4_fail_closed_unparseable_witness :
    jsonLoads "not-json" = .error "Expecting value"
    ∧ extract_guardrail_passed "not-json" = none
    ∧ (dictGet (call_guardrail_sync (.reply "not-json")) "guardrailPassed"
          = some (.bool false)
       ∧ ∃ s, dictGet (call_guardrail_sync (.reply "not-json")) "reason"
            = some (.str s)
          ∧ strStarts s "Guardrail response parse error" = true) :=
  ⟨rfl, rfl, C4_fail_closed_unparseable "not-json" "Expecting value" rfl rfl⟩

/-- C5.  Moderation transport error policy: for every exception raised
by the moderation call, if the error text contains a policy-violation
marker the verdict is a denial whose reason is a best-effort content
filter description and whose `content_filters` field is populated from
the detail embedded in the exception body; if no marker is present the
moderator fails open, recording the error text in the reason. -/
theorem C5_transport_error_policy (e : ExnInfo) :
    ((strHasSub e.text "content_filter" || strHasSub e.text "content_management_policy") = true →
      guardrailDenied (call_guardrail_sync (.err e)) = true
      ∧ (∃ s, dictGet (call_guardrail_sync (.err e)) "reason" = some (.str s)
          ∧ strStarts s "Azure content filter" = true)
      ∧ (∀ kvs d, e.body = some (.obj kvs) → dictGet kvs "content_filters" = some d →
          dictGet (call_guardrail_sync (.err e)) "content_filters" = some d))
    ∧ ((strHasSub e.text "content_filter" || strHasSub e.text "content_management_policy") = false →
      dictGet (call_guardrail_sync (.err e)) "guardrailPassed" = some (.bool true)
      ∧ dictGet (call_guardrail_sync (.err e)) "reason"
          = some (.str ("Guardrail error: " ++ e.text))) := by
  constructor
  · intro hm
    have hres : call_guardrail_sync (.err e)
        = [("guardrailPassed", .bool false),
           ("reason", .str (filterReasonOf (extractedContentFilters e))),
           ("azure_content_filter", .bool true),
           ("content_filters", (extractedContentFilters e).getD .null)] := by
      simp only [call_guardrail_sync, handle_guardrail_error, hm, if_true]
    rw [hres]
    refine ⟨rfl, ⟨filterReasonOf (extractedContentFilters e), ?_, filterReasonOf_starts _⟩, ?_⟩
    · rfl
    · intro kvs d hb hcf
      have hx : extractedContentFilters e = some d := by
        simp only [extractedContentFilters, hb]
        exact hcf
      rw [hx]
      rfl
  · intro hm
    have hres : call_guardrail_sync (.err e)
        = [("guardrailPassed", .bool true),
           ("reason", .str ("Guardrail error: " ++ e.text))] := by
      simp only [call_guardrail_sync, handle_guardrail_error, hm,
        Bool.false_eq_true, if_false]
    rw [hres]
    exact ⟨rfl, rfl⟩

def exnFiltered : ExnInfo :=
  { text := "Error code: 400 - content_filter triggered by content_management_policy",
    body := some (.obj
      [("content_filters", .arr
        [.obj [("content_filter_results", .obj
          [("hate", .obj [("filtered", .bool true), ("severity", .str "high")])])]])]) }

def exnPlain : ExnInfo :=
  { text := "Connection timed out", body := none }

/-- Witness for C5: a marker-bearing exception with embedded filter
detail is denied with the detail propagated; a plain transport error
fails open with its text as the reason. -/
theorem C5_transport_error_policy_witness :
    ((strHasSub exnFiltered.text "content_filter"
        || strHasSub exnFiltered.text "content_management_policy") = true
      ∧ (guardrailDenied (call_guardrail_sync (.err exnFiltered)) = true
        ∧ (∃ s, dictGet (call_guardrail_sync (.err exnFiltered)) "reason" = some (.str s)
            ∧ strStarts s "Azure content filter" = true)
        ∧ (∀ kvs d, exnFiltered.body = some (.obj kvs) →
            dictGet kvs "content_filters" = some d →
            dictGet (call_guardrail_sync (.err exnFiltered)) "content_filters" = some d)))
    ∧ ((strHasSub exnPlain.text "content_filter"
        || strHasSub exnPlain.text "content_management_policy") = false
      ∧ dictGet (call_guardrail_sync (.err exnPlain)) "guardrailPassed"
          = some (.bool true)
      ∧ dictGet (call_guardrail_sync (.err exnPlain)) "reason"
          = some (.str ("Guardrail error: " ++ exnPlain.text))) :=
  ⟨⟨rfl, (C5_transport_error_policy exnFiltered).1 rfl⟩,
   ⟨rfl, (C5_transport_error_policy exnPlain).2 rfl⟩⟩

/-- C6 counterexample: after a chunk has already been streamed (so a
Started marker was already enqueued), a mid-stream error enqueues a
second Started marker unconditionally (app.py line 280), so the queue
holds two start events where the claim predicts one. -/
theorem C6_counterexample_duplicate_start :
    (stream_workflow_response [⟨.textDelta, "hi", none⟩] (some "boom")).countP isStartEv = 2
    ∧ ¬((stream_workflow_response [⟨.textDelta, "hi", none⟩] (some "boom")).countP isStartEv = 1) :=
  ⟨rfl, by decide⟩

/-- C6 (amended).  Generator error synthesis: on a transport error after
any prefix of the stream, the worker enqueues a Started event
unconditionally (a second one when a chunk was already streamed), then a
single chunk `Error: ...`, an Ended event, and a terminal done event
with `full_response = "Error: ..."` and no item-id list; the
end-of-sequence sentinel is the last item enqueued on both the error
path and the success path. -/
theorem C6_error_synthesis_amended (events : List LLEvent) (err : String) :
    (∃ chunkPart, stream_workflow_response events (some err)
        = chunkPart ++ [.msgStart, .msgContent ("Error: " ++ err), .msgEnd,
                        .done ("Error: " ++ err) none none, .sentinel]
      ∧ chunkPart.countP isSentinelEv = 0
      ∧ chunkPart.countP isDoneEv = 0
      ∧ chunkPart.countP isStartEv = (if events.any isDeltaEv then 1 else 0))
    ∧ (stream_workflow_response events none).getLast? = some .sentinel
    ∧ (stream_workflow_response events (some err)).getLast? = some .sentinel := by
  refine ⟨⟨(events.foldl genStep ⟨[], false, "", []⟩).out, rfl, ?_, ?_, ?_⟩, ?_, ?_⟩
  · simpa using genFold_countSentinel events ⟨[], false, "", []⟩
  · simpa using genFold_countDone events ⟨[], false, "", []⟩
  · rw [genFold_countStart events ⟨[], false, "", []⟩ (by simp), genFold_started]
    simp
  · unfold stream_workflow_response
    rw [List.getLast?_append, List.getLast?_append]
    rfl
  · unfold stream_workflow_response
    rw [List.getLast?_append]
    rfl

def evC7ids : List LLEvent :=
  [⟨.other, "", some "a"⟩, ⟨.other, "", some "a"⟩, ⟨.other, "", some "b"⟩]

def grDenyPolicy : Dict := [("guardrailPassed", JValue.bool false), ("reason", JValue.str "policy")]

/-- C7 counterexample: a denied request whose generator collected ids
`a, a, b` (terminal done event carrying `[a, b]`), but whose terminal
done event and sentinel were both consumed during buffering
(`k = 4` = full queue), performs no cleanup at all: the post-denial
drain is skipped (`workflow_done` is set), so no deletion call is made —
not the claimed deletions for exactly `[a, b]`. -/
theorem C7_counterexample_buffered_done :
    guardrailDenied grDenyPolicy = true
    ∧ stream_workflow_response evC7ids none
        = [.msgStart, .msgEnd, .done "" (some ["a", "b"]) none, .sentinel]
    ∧ (chat_with_workflow_and_guardrail (stream_workflow_response evC7ids none) 4
        grDenyPolicy false (fun _ => false)).cleanup.attempted = []
    ∧ ¬((chat_with_workflow_and_guardrail (stream_workflow_response evC7ids none) 4
        grDenyPolicy false (fun _ => false)).cleanup.attempted = ["a", "b"]) :=
  ⟨rfl, rfl, rfl, by decide⟩

/-- C7 (amended).  Cleanup id deduplication: for every denied request
whose terminal done event is still in the queue when the verdict
arrives (it was not consumed during buffering) and whose cleanup client
initializes, the deletion calls are attempted for exactly the ids the
generator collected, deduplicated in first-seen order — e.g. collected
ids `a, a, b` lead to deletion calls for exactly `[a, b]` in that
order.  (If the terminal event and sentinel were already buffered, no
cleanup occurs — see the counterexample.) -/
theorem C7_cleanup_dedup_amended (events : List LLEvent) (k : Nat) (gr : Dict)
    (df : String → Bool)
    (hden : guardrailDenied gr = true)
    (hk : k + 2 ≤ (stream_workflow_response events none).length) :
    (chat_with_workflow_and_guardrail (stream_workflow_response events none) k gr
        false df).cleanup.attempted
      = dedupKeepFirst [] (events.filterMap capturedId) := by
  obtain ⟨B, F, U, hq, hs, hd, hc, hU⟩ := stream_success_shape events
  have hlen : (stream_workflow_response events none).length = B.length + 2 := by
    rw [hq]; simp
  have hkB : k ≤ B.length := by omega
  rw [hq, coord_denied_cleanup B F U none k gr false df hs hd hkB hden, ← hU]
  unfold runCleanup
  by_cases hU0 : U.isEmpty = true
  · rw [if_pos hU0]
    simp [List.isEmpty_iff.mp hU0]
  · rw [if_neg hU0]
    simp

/-- Witness for C7 (amended): collected ids `a, a, b`, nothing buffered,
denied verdict — deletion calls for exactly `[a, b]`. -/
theorem C7_cleanup_dedup_amended_witness :
    guardrailDenied grDenyPolicy = true
    ∧ 0 + 2 ≤ (stream_workflow_response evC7ids none).length
    ∧ (chat_with_workflow_and_guardrail (stream_workflow_response evC7ids none) 0
        grDenyPolicy false (fun _ => false)).cleanup.attempted
      = dedupKeepFirst [] (evC7ids.filterMap capturedId)
    ∧ dedupKeepFirst [] (evC7ids.filterMap capturedId) = ["a", "b"] :=
  ⟨rfl, by decide,
    C7_cleanup_dedup_amended evC7ids 0 grDenyPolicy (fun _ => false) rfl (by decide),
    rfl⟩

/-- C8.  Handle-creation idempotence: running the get-or-create step a
second time returns the same pair of handles and performs zero further
external creation calls, and a single run performs at most one creation
call per kind. -/
theorem C8_handle_idempotence (st : SessionState) (g₁ w₁ g₂ w₂ : String) :
    (ensure_conversations (ensure_conversations st g₁ w₁).state g₂ w₂).state
        = (ensure_conversations st g₁ w₁).state
    ∧ (ensure_conversations (ensure_conversations st g₁ w₁).state g₂ w₂).guardrail_creates = 0
    ∧ (ensure_conversations (ensure_conversations st g₁ w₁).state g₂ w₂).workflow_creates = 0
    ∧ (ensure_conversations st g₁ w₁).guardrail_creates ≤ 1
    ∧ (ensure_conversations st g₁ w₁).workflow_creates ≤ 1 := by
  unfold ensure_conversations
  cases hg : st.guardrail_conversation_id <;> cases hw : st.workflow_conversation_id <;>
    simp [hg, hw]

/-- C9.  Cleanup is best-effort and absorbed: every id in the list gets
its own deletion attempt no matter which deletions fail (failures are
only recorded), and neither per-id failures nor a cleanup client
failure change the coordinator's output sequence in any way. -/
theorem C9_cleanup_absorbed (ids : List String) (df : String → Bool)
    (q : List QEvent) (k : Nat) (gr : Dict) (cf₁ cf₂ : Bool) (df₁ df₂ : String → Bool) :
    (runCleanup ids false df).attempted = ids
    ∧ (runCleanup ids false df).failures = ids.filter df
    ∧ (chat_with_workflow_and_guardrail q k gr cf₁ df₁).output
        = (chat_with_workflow_and_guardrail q k gr cf₂ df₂).output := by
  refine ⟨?_, ?_, ?_⟩
  · unfold runCleanup
    by_cases h : ids.isEmpty = true
    · rw [if_pos h]
      simp [List.isEmpty_iff.mp h]
    · rw [if_neg h]
      simp
  · unfold runCleanup
    by_cases h : ids.isEmpty = true
    · rw [if_pos h]
      simp [List.isEmpty_iff.mp h]
    · rw [if_neg h]
      simp
  · unfold chat_with_workflow_and_guardrail
    by_cases h : guardrailDenied gr = true <;> simp [h]

/-- C10.  Missing terminal event on a fast generator: if the verdict is
allowed but the generator's whole queue — terminal done event and
sentinel included — was consumed while buffering, the replay skips the
buffered done event and the drain phase is skipped, so the output
contains no done event at all and the `full_response` recorded for the
turn is the empty string. -/
theorem C10_fast_generator_empty_turn (events : List LLEvent) (k : Nat) (gr : Dict)
    (cf : Bool) (df : String → Bool)
    (hall : guardrailDenied gr = false)
    (hk : k = (stream_workflow_response events none).length) :
    ((chat_with_workflow_and_guardrail (stream_workflow_response events none)
        k gr cf df).output).countP isDoneEv = 0
    ∧ recorded_full_response ((chat_with_workflow_and_guardrail
        (stream_workflow_response events none) k gr cf df).output) = "" := by
  obtain ⟨B, F, U, hq, hs, hd, hc, hU⟩ := stream_success_shape events
  subst hk
  rw [hq, coord_allowed_full_buffer B F (some U) none gr cf df hs hd hall]
  exact ⟨hd, recorded_no_done B hd⟩

/-- Witness for C10: the `Hello, world` generator fully buffered
(7 queue items consumed) under an allowed verdict yields no done event
and records an empty `full_response`. -/
theorem C10_fast_generator_empty_turn_witness :
    guardrailDenied grAllowOk = false
    ∧ 7 = (stream_workflow_response evHello none).length
    ∧ (((chat_with_workflow_and_guardrail (stream_workflow_response evHello none)
          7 grAllowOk false (fun _ => false)).output).countP isDoneEv = 0
       ∧ recorded_full_response ((chat_with_workflow_and_guardrail
          (stream_workflow_response evHello none) 7 grAllowOk false
          (fun _ => false)).output) = "") :=
  ⟨rfl, by decide,
    C10_fast_generator_empty_turn evHello 7 grAllowOk false (fun _ => false) rfl (by decide)⟩
